import Mathlib

/-!
Shallow embedding of the autobuilder configuration core
(`autobuilder/abconfig.py`): the domain model (Buildtype, Repo,
TargetImageSet, Distro, workers), the configuration registry lookup
(`get_project_for_url` / `project_from_url`), the GitHub pull-request
webhook handler (`handle_pull_request`), the force scheduler override
(`computeBuilderNames`), and the poller derivation (`change_sources`).

Python dictionaries are modelled as association lists; Python `None`
as `Option.none`; Python truthiness of optional strings and numbers by
explicit `truthy*` helpers; fallible constructors (which raise
`RuntimeError` in the source) return `Except String`.
-/

namespace Autobuilder

/-- Python truthiness of an optional string: `None` and the empty string
are falsy, every other string is truthy. -/
def truthyStr : Option String → Bool
  | none => false
  | some s => s ≠ ""

/-- Python truthiness of an optional integer: `None` and `0` are falsy. -/
def truthyNat : Option Nat → Bool
  | none => false
  | some n => n ≠ 0

/-- Python dict update `m[k] = v` on an association list: replace the value
at the first occurrence of key `k`, or append a new entry when `k` is
absent. -/
def dictSet {α : Type} (m : List (String × α)) (k : String) (v : α) :
    List (String × α) :=
  match m with
  | [] => [(k, v)]
  | (k0, v0) :: rest =>
      if k0 = k then (k0, v) :: rest else (k0, v0) :: dictSet rest k v

/-- Python dict lookup on an association list (first occurrence wins;
association lists built with `dictSet` have unique keys). -/
def dictGet {α : Type} (m : List (String × α)) (k : String) : Option α :=
  match m with
  | [] => none
  | (k0, v0) :: rest => if k0 = k then some v0 else dictGet rest k

/-- `Buildtype.__init__`: pure field assignment; the `extra_config`
argument is coalesced with `or` so that `None` (and the falsy empty
string) become `''`.  The structure holds the post-constructor state and
its defaults mirror the Python keyword defaults. -/
structure Buildtype where
  name : String
  build_sdk : Bool := false
  install_sdk : Bool := false
  sdk_root : Option String := none
  current_symlink : Bool := false
  defaulttype : Bool := false
  pullrequesttype : Bool := false
  production_release : Bool := false
  disable_sstate : Bool := false
  extra_config : String := ""
deriving Repr, DecidableEq

/-- The module constant `DEFAULT_BLDTYPES`. -/
def DEFAULT_BLDTYPES : List String := ["ci", "no-sstate", "snapshot", "release", "pr"]

/-- The buildtype list `Distro.__init__` builds when the `buildtypes`
argument is `None`: one plain `Buildtype` per name in `DEFAULT_BLDTYPES`,
then `self.buildtypes[0].defaulttype = True`. -/
def defaultBuildtypes : List Buildtype :=
  match DEFAULT_BLDTYPES.map (fun n => ({ name := n } : Buildtype)) with
  | [] => []
  | b :: rest => { b with defaulttype := true } :: rest

/-- `Repo`: post-constructor state. -/
structure Repo where
  name : String
  uri : String
  pollinterval : Option Nat
  project : String
  submodules : Bool
deriving Repr, DecidableEq

/-- `Repo.__init__`: `project` defaults to `name` via `project or name`
(so `None` and the empty string both fall back to `name`). -/
def mkRepo (name uri : String) (pollinterval : Option Nat)
    (project : Option String) (submodules : Bool) : Repo :=
  { name := name, uri := uri, pollinterval := pollinterval,
    project := if truthyStr project then project.getD name else name,
    submodules := submodules }

/-- `TargetImageSet`: post-constructor state; the two image collections
are stored exactly as passed (possibly `None`). -/
structure TargetImageSet where
  name : String
  images : Option (List String)
  sdkimages : Option (List String)
deriving Repr, DecidableEq

/-- `TargetImageSet.__init__`: raises `RuntimeError` exactly when the
`images` argument *is None* and the `sdkimages` argument *is None*;
otherwise stores both as-is. -/
def mkTargetImageSet (name : String) (images sdkimages : Option (List String)) :
    Except String TargetImageSet :=
  if images.isNone && sdkimages.isNone then
    .error ("No images or SDK images defined for " ++ name)
  else
    .ok { name := name, images := images, sdkimages := sdkimages }

/-- `Distro`: post-constructor state (restricted to the fields the
webhook/scheduler/poller paths read; the remaining fields of the source
are plain assignments of constructor arguments never validated). -/
structure Distro where
  name : String
  reponame : String
  branch : String
  email : String
  artifacts_path : String
  targets : Option (List TargetImageSet)
  repotimer : Nat
  buildtypes : List Buildtype
  default_buildtype : String
  weekly_type : Option String
  push_type : Option String
  pullrequest_type : Option String
deriving Repr, DecidableEq

/-- `Distro.__init__` (validation and trigger-type resolution).
Python defaults for the trailing arguments are `targets=None`,
`repotimer=300`, `buildtypes=None`, `weekly_type=None`,
`push_type='__default__'`, `pullrequest_type=None`; call sites here pass
them positionally.  The checks run in source order: exactly one default
buildtype, then known weekly type, then (when `pullrequest_type` is
truthy) exactly one buildtype flagged `pullrequesttype`, whose *name*
becomes the resolved `pullrequest_type`. -/
def mkDistro (name reponame branch email path : String)
    (targets : Option (List TargetImageSet)) (repotimer : Nat)
    (buildtypes : Option (List Buildtype)) (weekly_type : Option String)
    (push_type : Option String) (pullrequest_type : Option String) :
    Except String Distro :=
  let bts : List Buildtype := match buildtypes with
    | none => defaultBuildtypes
    | some l => l
  match (bts.filter (fun (b : Buildtype) => b.defaulttype)).map (fun (b : Buildtype) => b.name) with
  | [dflt] =>
      let weeklyUnknown := match weekly_type with
        | some w => !((bts.map (fun (b : Buildtype) => b.name)).contains w)
        | none => false
      if weeklyUnknown then
        .error ("Weekly build type for " ++ name ++ " set to unknown type")
      else
        let pushResolved : Option String := match push_type with
          | none => none
          | some s => if s = "" then none
                      else if s = "__default__" then some dflt else some s
        let base : Distro :=
          { name := name, reponame := reponame, branch := branch,
            email := email, artifacts_path := path, targets := targets,
            repotimer := repotimer, buildtypes := bts,
            default_buildtype := dflt, weekly_type := weekly_type,
            push_type := pushResolved, pullrequest_type := none }
        if truthyStr pullrequest_type then
          match (bts.filter (fun (b : Buildtype) => b.pullrequesttype)).map (fun (b : Buildtype) => b.name) with
          | [prname] => .ok { base with pullrequest_type := some prname }
          | _ => .error ("Must set exactly one PR build type for " ++ name)
        else
          .ok base
  | _ => .error ("Must set exactly one default build type for " ++ name)

/-- Boolean error test on `Except` results of the fallible constructors. -/
def isError {α : Type} : Except String α → Bool
  | .error _ => true
  | .ok _ => false

/-- A scratch-volume parameter dictionary: the source accesses the keys
`name`, `size`, `type` and `iops` (the last possibly `None`), exactly the
shape of the module constant `default_svp`. -/
structure ScratchVolParams where
  name : String
  size : Nat
  type : String
  iops : Option Nat
deriving Repr, DecidableEq

/-- The module constant `default_svp`. -/
def default_svp : ScratchVolParams :=
  { name := "/dev/xvdf", size := 200, type := "standard", iops := none }

/-- `EC2Params`: post-constructor state. -/
structure EC2Params where
  instance_type : String
  ami : String
  keypair : Option String
  region : Option String
  secgroup_ids : List String
  subnet : Option String
  elastic_ip : Option String
  tags : Option (List (String × String))
  scratchvolparams : Option ScratchVolParams
  instance_profile_name : Option String
deriving Repr, DecidableEq

/-- `EC2Params.__init__`: when `scratchvol` is true, `scratchvolparams`
is `scratchvol_params or default_svp` (a missing spec falls back to the
module default); when it is false, `scratchvolparams` is `None`. -/
def mkEC2Params (instance_type ami : String) (secgroup_ids : List String)
    (keypair region subnet elastic_ip : Option String)
    (tags : Option (List (String × String))) (scratchvol : Bool)
    (scratchvol_params : Option ScratchVolParams)
    (instance_profile_name : Option String) : EC2Params :=
  { instance_type := instance_type, ami := ami, keypair := keypair,
    region := region, secgroup_ids := secgroup_ids, subnet := subnet,
    elastic_ip := elastic_ip, tags := tags,
    scratchvolparams :=
      if scratchvol then some (scratchvol_params.getD default_svp) else none,
    instance_profile_name := instance_profile_name }

/-- The `Ebs` dictionary of a block-device mapping entry; `iops = none`
models the absence of the `Iops` key. -/
structure EbsSpec where
  volumeType : String
  volumeSize : Nat
  deleteOnTermination : Bool
  iops : Option Nat
deriving Repr, DecidableEq

/-- A block-device mapping entry `{DeviceName: ..., Ebs: ...}`. -/
structure DevMapping where
  deviceName : String
  ebs : EbsSpec
deriving Repr, DecidableEq

/-- `AutobuilderEC2Worker`: post-constructor state (worker name, secret,
derived tag map and derived block-device mapping). -/
structure AutobuilderEC2Worker where
  name : String
  password : String
  ec2params : EC2Params
  ec2tags : List (String × String)
  ec2_dev_mapping : Option (List DevMapping)
deriving Repr, DecidableEq

/-- `AutobuilderEC2Worker.__init__`.  `rngPassword` stands for the
16-character alphanumeric string drawn from `SystemRandom` when the
`password` argument is falsy (the draw itself is an external source of
randomness).  Tag derivation: start from `ec2params.tags`; when that map
is truthy (present and non-empty) and has no `Name` key, copy it and add
`Name = worker name`; when it is falsy, use `{Name: worker name}`.
Block-device derivation: absent unless `scratchvolparams` is set; the
`Ebs` entry carries the volume type and size, `DeleteOnTermination`
always true, and an `Iops` key only for type `io1` — the supplied
`iops` value when truthy, else 1000. -/
def mkAutobuilderEC2Worker (name : String) (password : Option String)
    (ec2params : EC2Params) (rngPassword : String) : AutobuilderEC2Worker :=
  let pw := if truthyStr password then password.getD "" else rngPassword
  let tags0 := ec2params.tags.getD []
  let ec2tags :=
    if tags0 ≠ [] then
      if (dictGet tags0 "Name").isSome then tags0
      else dictSet tags0 "Name" name
    else [("Name", name)]
  let devmap : Option (List DevMapping) :=
    match ec2params.scratchvolparams with
    | none => none
    | some svp =>
        let ebs : EbsSpec :=
          { volumeType := svp.type, volumeSize := svp.size,
            deleteOnTermination := true,
            iops := if svp.type = "io1"
                    then some (if truthyNat svp.iops then svp.iops.getD 0 else 1000)
                    else none }
        some [{ deviceName := svp.name, ebs := ebs }]
  { name := name, password := pw, ec2params := ec2params,
    ec2tags := ec2tags, ec2_dev_mapping := devmap }

/-- `AutobuilderConfig`: the state read by the lookup, poller and
scheduler paths (`workers`/`worker_cfgs` are runtime worker objects not
read by any of those paths and are omitted; `repos` is the constructor
argument dictionary). -/
structure AutobuilderConfig where
  name : String
  worker_names : List String
  repos : List (String × Repo)
  distros : List Distro

/-- The `codebasemap` computed in `AutobuilderConfig.__init__`:
`{self.repos[r].uri: r for r in self.repos}`, a dict built by inserting
`uri -> repo key` for each repo in iteration order (later duplicates
overwrite). -/
def AutobuilderConfig.codebasemap (cfg : AutobuilderConfig) :
    List (String × String) :=
  cfg.repos.foldl (fun m p => dictSet m p.2.uri p.1) []

/-- `AutobuilderConfig.project_from_url`: `repos[codebasemap[url]].project`
with any `KeyError` (either lookup) caught and turned into `None`. -/
def AutobuilderConfig.project_from_url (cfg : AutobuilderConfig)
    (repo_url : String) : Option String :=
  match dictGet cfg.codebasemap repo_url with
  | none => none
  | some r =>
      match dictGet cfg.repos r with
      | none => none
      | some repo => some repo.project

/-- The derived builder-name list assigned to each distro in
`AutobuilderConfig.__init__`:
`[d.name + '-' + imgset.name for imgset in d.targets]`. -/
def Distro.builder_names (d : Distro) : List String :=
  (d.targets.getD []).map (fun t => d.name ++ "-" ++ t.name)

/-- Modelled from the spec: the `settings` module (not part of this
repository) keeps a process-wide dictionary from configuration name to
`AutobuilderConfig`, populated once per name at startup; iteration order
of that dictionary is registration order.  A registry value is that
dictionary as an association list in registration order. -/
abbrev Registry : Type := List (String × AutobuilderConfig)

/-- `get_project_for_url`: scan the registered configurations in
registry (registration) order; return the first non-`None`
`project_from_url` answer, else the caller-supplied default. -/
def get_project_for_url (registry : Registry) (repo_url : String)
    (default_if_not_found : Option String) : Option String :=
  match registry with
  | [] => default_if_not_found
  | (_, abcfg) :: rest =>
      match abcfg.project_from_url repo_url with
      | some proj => some proj
      | none => get_project_for_url rest repo_url default_if_not_found

/-- A value stored in a change property map: the handler stores the raw
event name (a string) and the PR number (an integer). -/
inductive PropVal where
  | str (s : String)
  | int (n : Nat)
deriving Repr, DecidableEq

/-- The fields of a `pull_request` webhook payload read by
`handle_pull_request` (and by `codebasemap_from_github_payload`). -/
structure PRPayload where
  number : Nat
  action : Option String
  commits : Nat
  title : String
  body : String
  repo_full_name : String
  repo_html_url : String
  head_sha : String
  created_at : String
  links_html_href : String
  base_repo_html_url : String
  base_repo_full_name : String
  sender_login : String
deriving Repr, DecidableEq

/-- The `_codebase` attribute of the handler: `None`, a plain string, or
the callable default `codebasemap_from_github_payload` installed by
`AutobuilderGithubEventHandler.__init__` when no codebase is given. -/
inductive CodebaseSetting where
  | pyNone
  | str (s : String)
  | defaultCallable

/-- A change dictionary as built by `handle_pull_request`.  `project`
keeps the (always present here) result of `get_project_for_url`;
`codebase = none` models the `codebase` key being absent. -/
structure Change where
  revision : String
  when_timestamp : Nat
  branch : String
  revlink : String
  repository : String
  project : Option String
  category : String
  author : String
  comments : String
  properties : List (String × PropVal)
  codebase : Option (Option String)
deriving Repr, DecidableEq

/-- The external collaborators and configured state of an
`AutobuilderGithubEventHandler`: the configured pull-request ref flavor,
the skip-pattern test `_has_skip` applied to a commit message, the
network commit-message lookup `_get_commit_msg (full repo name, sha)`,
the buildbot property extractor, the date parser, and the `_codebase`
setting. -/
structure GithubEventHandler where
  pullrequest_ref : String
  hasSkip : String → Bool
  getCommitMsg : String → String → String
  extractProperties : PRPayload → List (String × PropVal)
  dateparse : String → Nat
  codebase : CodebaseSetting

/-- `codebasemap_from_github_payload` on a pull-request payload (such
payloads always carry the `pull_request` key, so the base-repo HTML URL
branch is taken): `get_project_for_url(url)` with no default. -/
def codebasemap_from_github_payload (registry : Registry)
    (payload : PRPayload) : Option String :=
  get_project_for_url registry payload.base_repo_html_url none

/-- `AutobuilderGithubEventHandler.handle_pull_request`.  The single
suspension point (`yield self._get_commit_msg(...)`) is the call to
`h.getCommitMsg`.  Skip-pattern match returns `([], 'git')` before the
action filter runs; an action outside `{opened, reopened, synchronize}`
returns the empty change list; otherwise exactly one change dictionary
is built and returned with the `git` tag. -/
def handle_pull_request (registry : Registry) (h : GithubEventHandler)
    (payload : PRPayload) (event : String) : List Change × String :=
  let number := payload.number
  let refname := "refs/pull/" ++ toString number ++ "/" ++ h.pullrequest_ref
  let head_msg := h.getCommitMsg payload.repo_full_name payload.head_sha
  if h.hasSkip head_msg then ([], "git")
  else
    let actionOk := match payload.action with
      | some a => a = "opened" || a = "reopened" || a = "synchronize"
      | none => false
    if !actionOk then ([], "git")
    else
      let properties :=
        dictSet (dictSet (h.extractProperties payload) "event" (.str event))
          "prnumber" (.int number)
      let change : Change :=
        { revision := payload.head_sha,
          when_timestamp := h.dateparse payload.created_at,
          branch := refname,
          revlink := payload.links_html_href,
          repository := payload.repo_html_url,
          project := get_project_for_url registry payload.base_repo_html_url
                       (some payload.base_repo_full_name),
          category := "pull",
          author := payload.sender_login,
          comments := "GitHub Pull Request #" ++ toString number ++ " ("
                      ++ toString payload.commits ++ " commit"
                      ++ (if payload.commits ≠ 1 then "s" else "") ++ ")\n"
                      ++ payload.title ++ "\n" ++ payload.body,
          properties := properties,
          codebase := match h.codebase with
            | .defaultCallable =>
                some (codebasemap_from_github_payload registry payload)
            | .str s => some (some s)
            | .pyNone => none }
      ([change], "git")

/-- Python dict subscript `m[k]`: the value, or a `KeyError` failure. -/
def pyDictGet {α : Type} (m : List (String × α)) (k : String) :
    Except String α :=
  match dictGet m k with
  | some v => .ok v
  | none => .error ("KeyError: " ++ k)

/-- The change filter of a single-branch scheduler. -/
structure ChangeFilter where
  project : String
  branch : String
  codebase : String
  category : List String
deriving Repr, DecidableEq

/-- A weekly day-of-week/hour/minute slot from the external allocator
`settings.get_weekly_slot`. -/
structure SlotSpec where
  dayOfWeek : Nat
  hour : Nat
  minute : Nat
deriving Repr, DecidableEq

/-- One entry of `Distro.codebaseparamlist`: a codebase parameter whose
repository, branch and project are fixed parameters. -/
structure CodebaseParamSpec where
  codebase : String
  repository : String
  branch : String
  project : String
deriving Repr, DecidableEq

/-- The `buildtype` choice parameter of a force scheduler. -/
structure ChoiceParam where
  name : String
  label : String
  choices : List String
  defaultChoice : String
deriving Repr, DecidableEq

/-- `AutobuilderForceScheduler`: the state its overridden
`computeBuilderNames` reads is the `builderNames` list fixed at
construction. -/
structure AutobuilderForceScheduler where
  name : String
  codebases : List CodebaseParamSpec
  properties : List ChoiceParam
  builderNames : List String
deriving Repr, DecidableEq

/-- `AutobuilderForceScheduler.computeBuilderNames`: ignores both the
`builderNames` and `builderid` arguments and returns the fixed
`self.builderNames`. -/
def computeBuilderNames (s : AutobuilderForceScheduler)
    (builderNames : Option (List String)) (builderid : Option Nat) :
    List String :=
  s.builderNames

/-- A scheduler produced by `AutobuilderConfig.schedulers`: a
single-branch scheduler, the force scheduler, or a nightly (weekly)
scheduler. -/
inductive SchedulerSpec where
  | singleBranch (name : String) (change_filter : ChangeFilter)
      (treeStableTimer : Nat) (properties : List (String × String))
      (codebases : List (String × String))
      (createAbsoluteSourceStamps : Bool) (builderNames : List String)
  | force (fs : AutobuilderForceScheduler)
  | nightly (name : String) (properties : List (String × String))
      (codebases : List (String × String))
      (createAbsoluteSourceStamps : Bool) (builderNames : List String)
      (slot : SlotSpec)
deriving Repr, DecidableEq

/-- `Distro.codebases`: `{reponame: {'repository': repos[reponame].uri}}`
(the inner one-key dict is represented by the uri). -/
def Distro.codebases (d : Distro) (repos : List (String × Repo)) :
    Except String (List (String × String)) := do
  let repo ← pyDictGet repos d.reponame
  .ok [(d.reponame, repo.uri)]

/-- `Distro.codebaseparamlist`: one codebase parameter fixing repository,
branch and project. -/
def Distro.codebaseparamlist (d : Distro) (repos : List (String × Repo)) :
    Except String (List CodebaseParamSpec) := do
  let repo ← pyDictGet repos d.reponame
  .ok [{ codebase := d.reponame, repository := repo.uri,
         branch := d.branch, project := repo.project }]

/-- The push-scheduler block of the per-distro `schedulers` body: a
single-branch scheduler when `push_type is not None`, nothing
otherwise. -/
def pushSchedulers (repos : List (String × Repo)) (d : Distro) :
    Except String (List SchedulerSpec) :=
  match d.push_type with
  | some pt => do
      let repo ← pyDictGet repos d.reponame
      let cbs ← d.codebases repos
      .ok [.singleBranch d.name
             { project := repo.project, branch := d.branch,
               codebase := d.reponame, category := ["push"] }
             d.repotimer [("buildtype", pt)] cbs true d.builder_names]
  | none => .ok []

/-- The pull-request-scheduler block: a single-branch scheduler with the
`-pr` name suffix and `pull` category when `pullrequest_type is not
None`, nothing otherwise. -/
def prSchedulers (repos : List (String × Repo)) (d : Distro) :
    Except String (List SchedulerSpec) :=
  match d.pullrequest_type with
  | some prt => do
      let repo ← pyDictGet repos d.reponame
      let cbs ← d.codebases repos
      .ok [.singleBranch (d.name ++ "-pr")
             { project := repo.project, branch := d.branch,
               codebase := d.reponame, category := ["pull"] }
             d.repotimer [("buildtype", prt)] cbs true d.builder_names]
  | none => .ok []

/-- The force-scheduler block, always constructed: name `<distro>-force`,
the buildtype choice parameter with the default buildtype preselected,
and the distro's fixed builder-name list. -/
def forceScheduler (repos : List (String × Repo)) (d : Distro) :
    Except String AutobuilderForceScheduler := do
  let cbp ← d.codebaseparamlist repos
  .ok { name := d.name ++ "-force", codebases := cbp,
        properties := [{ name := "buildtype", label := "Build type",
                         choices := d.buildtypes.map Buildtype.name,
                         defaultChoice := d.default_buildtype }],
        builderNames := d.builder_names }

/-- The weekly (nightly) block: present when `weekly_type is not None`,
with the externally allocated slot. -/
def weeklySchedulers (repos : List (String × Repo))
    (slots : String → SlotSpec) (d : Distro) :
    Except String (List SchedulerSpec) :=
  match d.weekly_type with
  | some wt => do
      let cbs ← d.codebases repos
      .ok [.nightly (d.name ++ "-" ++ "weekly") [("buildtype", wt)] cbs
             true d.builder_names (slots d.name)]
  | none => .ok []

/-- Per-distro body of the `schedulers` loop: push scheduler, then
pull-request scheduler, then the force scheduler (always), then the
weekly scheduler, in source order. -/
def distroSchedulers (repos : List (String × Repo))
    (slots : String → SlotSpec) (d : Distro) :
    Except String (List SchedulerSpec) := do
  let pushPart ← pushSchedulers repos d
  let prPart ← prSchedulers repos d
  let fs ← forceScheduler repos d
  let weeklyPart ← weeklySchedulers repos slots d
  .ok (pushPart ++ prPart ++ [.force fs] ++ weeklyPart)

/-- The loop of the `schedulers` property over a distro list:
concatenation of the per-distro scheduler lists in distro order. -/
def schedulersList (repos : List (String × Repo)) (slots : String → SlotSpec) :
    List Distro → Except String (List SchedulerSpec)
  | [] => .ok []
  | d :: rest => do
      let here ← distroSchedulers repos slots d
      let tail ← schedulersList repos slots rest
      .ok (here ++ tail)

/-- The `schedulers` property.  `slots` stands for the external weekly
slot allocator `settings.get_weekly_slot` (modelled as a function of the
distro name since it is queried once per weekly-enabled distro). -/
def AutobuilderConfig.schedulers (cfg : AutobuilderConfig)
    (slots : String → SlotSpec) : Except String (List SchedulerSpec) :=
  schedulersList cfg.repos slots cfg.distros

/-- A `GitPoller` change source as constructed by `change_sources`. -/
structure GitPoller where
  repourl : String
  workdir : String
  branches : List String
  category : String
  pollinterval : Nat
  pollAtLaunch : Bool
  project : String
deriving Repr, DecidableEq

/-- Python set insertion on a list representation (no duplicates,
insertion order). -/
def setAdd (l : List String) (x : String) : List String :=
  if l.contains x then l else l ++ [x]

/-- The branch set built for repo key `r` inside `change_sources`:
`branches.add(d.branch)` for every distro with `d.reponame == r` and a
truthy `d.push_type`. -/
def branchSet (distros : List Distro) (r : String) : List String :=
  distros.foldl
    (fun acc d =>
      if d.reponame = r && truthyStr d.push_type then setAdd acc d.branch
      else acc)
    []

/-- The call `sort(branches)` at the poller construction site: the name
`sort` is bound nowhere in the module or its imports (the Python builtin
is `sorted`), so evaluating the call raises `NameError`. -/
def pySort (branches : List String) : Except String (List String) :=
  .error "NameError: name 'sort' is not defined"

/-- The loop of the `change_sources` property over the repo dict: for
each repo (in dict order) with a truthy poll interval, build the branch
set and construct a `GitPoller` with `sort(branches)` — which raises
`NameError` the first time a polling repo is reached. -/
def changeSourcesList (distros : List Distro) :
    List (String × Repo) → Except String (List GitPoller)
  | [] => .ok []
  | (r, repo) :: rest =>
      if truthyNat repo.pollinterval then do
        let branches := branchSet distros r
        let sortedBranches ← pySort branches
        let tail ← changeSourcesList distros rest
        .ok ({ repourl := repo.uri, workdir := "gitpoller-" ++ repo.name,
               branches := sortedBranches, category := "push",
               pollinterval := repo.pollinterval.getD 0,
               pollAtLaunch := true, project := repo.project } :: tail)
      else changeSourcesList distros rest

/-- The `change_sources` property. -/
def AutobuilderConfig.change_sources (cfg : AutobuilderConfig) :
    Except String (List GitPoller) :=
  changeSourcesList cfg.distros cfg.repos

/-! Helper lemmas about the dictionary model and `Except`. -/

theorem dictGet_dictSet_self {α : Type} (m : List (String × α)) (k : String)
    (v : α) : dictGet (dictSet m k v) k = some v := by
  induction m with
  | nil => simp [dictSet, dictGet]
  | cons p rest ih =>
      obtain ⟨k0, v0⟩ := p
      by_cases h : k0 = k
      · simp [dictSet, dictGet, h]
      · simp [dictSet, dictGet, h, ih]

theorem dictGet_dictSet_ne {α : Type} (m : List (String × α)) {k k' : String}
    (v : α) (h : k' ≠ k) : dictGet (dictSet m k v) k' = dictGet m k' := by
  induction m with
  | nil => simp [dictSet, dictGet, h, Ne.symm h]
  | cons p rest ih =>
      obtain ⟨k0, v0⟩ := p
      by_cases h0 : k0 = k
      · subst h0
        simp [dictSet, dictGet, Ne.symm h]
      · by_cases h1 : k0 = k'
        · subst h1
          simp [dictSet, dictGet, h0, Ne.symm h0, h]
        · simp [dictSet, dictGet, h0, h1, ih]

theorem dictGet_dictSet_cases {α : Type} {m : List (String × α)}
    {k k' : String} {v r : α}
    (h : dictGet (dictSet m k v) k' = some r) :
    (k' = k ∧ r = v) ∨ dictGet m k' = some r := by
  by_cases hk : k' = k
  · subst hk
    rw [dictGet_dictSet_self] at h
    exact .inl ⟨rfl, (Option.some_inj.mp h).symm⟩
  · rw [dictGet_dictSet_ne m v hk] at h
    exact .inr h

theorem dictGet_isSome_of_mem {α : Type} {m : List (String × α)} {k : String}
    {v : α} (h : (k, v) ∈ m) : (dictGet m k).isSome := by
  induction m with
  | nil => cases h
  | cons p rest ih =>
      obtain ⟨k0, v0⟩ := p
      by_cases h0 : k0 = k
      · simp [dictGet, h0]
      · rcases List.mem_cons.mp h with heq | hmem
        · cases heq; exact absurd rfl h0
        · simp [dictGet, h0, ih hmem]

theorem exceptBind_ok {α β : Type} {x : Except String α}
    {f : α → Except String β} {b : β} :
    x >>= f = .ok b ↔ ∃ a, x = .ok a ∧ f a = .ok b := by
  cases x with
  | error e => simp [Bind.bind, Except.bind]
  | ok a => simp [Bind.bind, Except.bind]

/-! Helper lemmas about `codebasemap` and `project_from_url`. -/

theorem foldl_dictSet_lookup (l : List (String × Repo))
    (m0 : List (String × String)) (url r : String)
    (h : dictGet (l.foldl (fun m p => dictSet m p.2.uri p.1) m0) url = some r) :
    dictGet m0 url = some r ∨ ∃ repo, (r, repo) ∈ l := by
  induction l generalizing m0 with
  | nil => exact .inl h
  | cons p t ih =>
      rcases ih (dictSet m0 p.2.uri p.1) h with h0 | ⟨repo, hrepo⟩
      · rcases dictGet_dictSet_cases h0 with ⟨_, hr⟩ | hm0
        · exact .inr ⟨p.2, by rw [hr]; exact List.mem_cons_self _ _⟩
        · exact .inl hm0
      · exact .inr ⟨repo, List.mem_cons_of_mem _ hrepo⟩

theorem codebasemap_lookup_key (cfg : AutobuilderConfig) (url r : String)
    (h : dictGet cfg.codebasemap url = some r) :
    (dictGet cfg.repos r).isSome := by
  rcases foldl_dictSet_lookup cfg.repos [] url r h with h0 | ⟨repo, hmem⟩
  · simp [dictGet] at h0
  · exact dictGet_isSome_of_mem hmem

theorem project_from_url_eq_of (cfg : AutobuilderConfig) (url r : String)
    (repo : Repo) (h1 : dictGet cfg.codebasemap url = some r)
    (h2 : dictGet cfg.repos r = some repo) :
    cfg.project_from_url url = some repo.project := by
  simp [AutobuilderConfig.project_from_url, h1, h2]

theorem project_from_url_isSome (cfg : AutobuilderConfig) (url : String) :
    (cfg.project_from_url url).isSome = (dictGet cfg.codebasemap url).isSome := by
  unfold AutobuilderConfig.project_from_url
  cases h : dictGet cfg.codebasemap url with
  | none => simp
  | some r =>
      have hk := codebasemap_lookup_key cfg url r h
      cases h2 : dictGet cfg.repos r with
      | none => rw [h2] at hk; simp at hk
      | some repo => simp [h2]

/-! Claim theorems. -/

/-- C5 counterexample: a `TargetImageSet` whose images collection and
sdkimages collection are both *empty* (but supplied) is constructed
successfully, contradicting the claim that construction fails whenever
both collections are empty — the source only rejects the case where both
arguments are `None` (absent). -/
theorem targetimageset_both_empty_lists_succeeds :
    mkTargetImageSet "mt" (some []) (some []) =
      .ok { name := "mt", images := some [], sdkimages := some [] } := rfl

/-- C5 (amended): `TargetImageSet` construction fails exactly when both
the images argument and the sdkimages argument are absent (`None`);
construction succeeds whenever at least one of the two is supplied, even
as an empty collection. -/
theorem targetimageset_error_iff_both_none
    (name : String) (images sdkimages : Option (List String)) :
    isError (mkTargetImageSet name images sdkimages) = true ↔
      images = none ∧ sdkimages = none := by
  cases images <;> cases sdkimages <;>
    simp [mkTargetImageSet, isError]

/-- Characterization of `mkDistro` failure, shared by the claim
theorems below. -/
theorem mkDistro_isError_iff
    (name reponame branch email path : String)
    (targets : Option (List TargetImageSet)) (repotimer : Nat)
    (buildtypes : Option (List Buildtype)) (weekly_type : Option String)
    (push_type : Option String) (pullrequest_type : Option String) :
    isError (mkDistro name reponame branch email path targets repotimer
      buildtypes weekly_type push_type pullrequest_type) = true ↔
    (((buildtypes.getD defaultBuildtypes).filter
        (fun b => b.defaulttype)).length ≠ 1
     ∨ (truthyStr pullrequest_type = true ∧
        ((buildtypes.getD defaultBuildtypes).filter
          (fun b => b.pullrequesttype)).length ≠ 1)
     ∨ ∃ w, weekly_type = some w ∧
         w ∉ (buildtypes.getD defaultBuildtypes).map (fun b => b.name)) := by
  have main : ∀ bts : List Buildtype,
      isError (mkDistro name reponame branch email path targets repotimer
        (some bts) weekly_type push_type pullrequest_type) = true ↔
      ((bts.filter (fun b => b.defaulttype)).length ≠ 1
       ∨ (truthyStr pullrequest_type = true ∧
          (bts.filter (fun b => b.pullrequesttype)).length ≠ 1)
       ∨ ∃ w, weekly_type = some w ∧
           w ∉ bts.map (fun b => b.name)) := by
    intro bts
    unfold mkDistro
    simp only
    split
    case _ dflt heq =>
      have hlen1 : (bts.filter (fun b => b.defaulttype)).length = 1 := by
        have := congrArg List.length heq
        simpa using this
      split
      case isTrue hW =>
        cases hw : weekly_type with
        | none => rw [hw] at hW; simp at hW
        | some w =>
            rw [hw] at hW
            simp only [Bool.not_eq_true'] at hW
            constructor
            · intro _
              refine .inr (.inr ⟨w, rfl, ?_⟩)
              simpa using hW
            · intro _; rfl
      case isFalse hW =>
        have hweekly : ∀ w, weekly_type = some w → ∃ b ∈ bts, b.name = w := by
          intro w hw
          rw [hw] at hW
          simp only [Bool.not_eq_true, Bool.not_eq_false] at hW
          simpa using hW
        split
        case isTrue hPR =>
          split
          case _ prname heq2 =>
            have hprlen : (bts.filter (fun b => b.pullrequesttype)).length = 1 := by
              have := congrArg List.length heq2
              simpa using this
            simp only [isError, hlen1, hprlen, hPR]
            simp
            exact hweekly
          case _ hne2 =>
            have hprlen : (bts.filter (fun b => b.pullrequesttype)).length ≠ 1 := by
              intro hc
              have : ((bts.filter (fun b => b.pullrequesttype)).map
                  (fun b => b.name)).length = 1 := by simpa using hc
              rcases List.length_eq_one.mp this with ⟨a, ha⟩
              exact hne2 a ha
            simp [isError, hlen1, hprlen, hweekly, hPR]
        case isFalse hPR =>
          simp only [Bool.not_eq_true] at hPR
          simp [isError, hlen1, hPR]
          exact hweekly
    case _ hne =>
      have hlen : (bts.filter (fun b => b.defaulttype)).length ≠ 1 := by
        intro hc
        have : ((bts.filter (fun b => b.defaulttype)).map
            (fun b => b.name)).length = 1 := by simpa using hc
        rcases List.length_eq_one.mp this with ⟨a, ha⟩
        exact hne a ha
      simp [isError, hlen]
  cases buildtypes with
  | none =>
      simpa [Option.getD] using main defaultBuildtypes
  | some l =>
      simpa [Option.getD] using main l

/-- C4: construction of a `Distro` fails if and only if the (possibly
defaulted) buildtype list has a number of default-flagged buildtypes
different from one, or a pull-request trigger is requested (truthy
`pullrequest_type`) and the number of buildtypes flagged as the
pull-request type differs from one, or a weekly-trigger reference is set
and names no buildtype in the list; otherwise construction succeeds. -/
theorem distro_construction_error_iff
    (name reponame branch email path : String)
    (targets : Option (List TargetImageSet)) (repotimer : Nat)
    (buildtypes : Option (List Buildtype)) (weekly_type : Option String)
    (push_type : Option String) (pullrequest_type : Option String) :
    isError (mkDistro name reponame branch email path targets repotimer
      buildtypes weekly_type push_type pullrequest_type) = true ↔
    (((buildtypes.getD defaultBuildtypes).filter
        (fun b => b.defaulttype)).length ≠ 1
     ∨ (truthyStr pullrequest_type = true ∧
        ((buildtypes.getD defaultBuildtypes).filter
          (fun b => b.pullrequesttype)).length ≠ 1)
     ∨ ∃ w, weekly_type = some w ∧
         w ∉ (buildtypes.getD defaultBuildtypes).map (fun b => b.name)) :=
  mkDistro_isError_iff name reponame branch email path targets repotimer
    buildtypes weekly_type push_type pullrequest_type

/-- C10: the `pullrequest_type` constructor argument of `Distro` is only
an on/off switch: any two truthy values yield identical construction
results; on success with a truthy value, the resolved
`pullrequest_type` field is the name of the unique buildtype flagged
`pullrequesttype` (never the argument value itself); with a falsy value
the field is `None` and no pull-request validation occurs (failure is
then exactly the default-buildtype or weekly-type condition). -/
theorem distro_pullrequest_flag_is_switch
    (name reponame branch email path : String)
    (targets : Option (List TargetImageSet)) (repotimer : Nat)
    (buildtypes : Option (List Buildtype)) (weekly_type : Option String)
    (push_type : Option String) (pr1 pr2 : Option String) :
    (truthyStr pr1 = true → truthyStr pr2 = true →
      mkDistro name reponame branch email path targets repotimer buildtypes
        weekly_type push_type pr1 =
      mkDistro name reponame branch email path targets repotimer buildtypes
        weekly_type push_type pr2)
    ∧ (truthyStr pr1 = true → ∀ d,
        mkDistro name reponame branch email path targets repotimer buildtypes
          weekly_type push_type pr1 = .ok d →
        ∃ n, ((buildtypes.getD defaultBuildtypes).filter
            (fun b => b.pullrequesttype)).map (fun b => b.name) = [n] ∧
          d.pullrequest_type = some n)
    ∧ (truthyStr pr1 = false →
        (∀ d, mkDistro name reponame branch email path targets repotimer
            buildtypes weekly_type push_type pr1 = .ok d →
          d.pullrequest_type = none)
        ∧ (isError (mkDistro name reponame branch email path targets
            repotimer buildtypes weekly_type push_type pr1) = true ↔
           (((buildtypes.getD defaultBuildtypes).filter
               (fun b => b.defaulttype)).length ≠ 1
            ∨ ∃ w, weekly_type = some w ∧
                w ∉ (buildtypes.getD defaultBuildtypes).map
                  (fun b => b.name)))) := by
  refine ⟨?_, ?_, ?_⟩
  · intro h1 h2
    unfold mkDistro
    simp only [h1, h2]
  · intro h1 d hd
    unfold mkDistro at hd
    simp only [h1, if_true] at hd
    split at hd
    case _ dflt heq =>
      split at hd
      case isTrue hW => simp at hd
      case isFalse hW =>
        split at hd
        case _ prname heq2 =>
            simp only [Except.ok.injEq] at hd
            refine ⟨prname, ?_, ?_⟩
            · cases buildtypes with
              | none => simpa [Option.getD] using heq2
              | some l => simpa [Option.getD] using heq2
            · rw [← hd]
        case _ hne2 => simp at hd
    case _ hne => simp at hd
  · intro hf
    constructor
    · intro d hd
      unfold mkDistro at hd
      simp only [hf] at hd
      split at hd
      case _ dflt heq =>
        split at hd
        case isTrue hW => simp at hd
        case isFalse hW =>
          simp only [Bool.false_eq_true, if_false, Except.ok.injEq] at hd
          rw [← hd]
      case _ hne => simp at hd
    · have h := mkDistro_isError_iff name reponame branch email path targets
        repotimer buildtypes weekly_type push_type pr1
      simp only [hf] at h
      simpa using h

/-- Unfolding helper: the derived tag map of an elastic worker. -/
theorem mkEC2Worker_ec2tags (name : String) (password : Option String)
    (p : EC2Params) (rng : String) :
    (mkAutobuilderEC2Worker name password p rng).ec2tags =
      (let tags0 := p.tags.getD []
       if tags0 ≠ [] then
         if (dictGet tags0 "Name").isSome then tags0
         else dictSet tags0 "Name" name
       else [("Name", name)]) := rfl

/-- C9: the derived tag map starts from the user-supplied tag map (or
the empty map); when that map has no `Name` key a `Name` tag equal to
the worker name is added; every user-supplied entry (in particular a
user-supplied `Name`) survives unchanged, and with a user-supplied
`Name` the tag map is left exactly as supplied. -/
theorem ec2worker_tag_derivation
    (name : String) (password : Option String) (p : EC2Params)
    (rng : String) :
    (dictGet (p.tags.getD []) "Name" = none →
      dictGet (mkAutobuilderEC2Worker name password p rng).ec2tags "Name" =
        some name)
    ∧ (∀ k v, dictGet (p.tags.getD []) k = some v →
        dictGet (mkAutobuilderEC2Worker name password p rng).ec2tags k =
          some v)
    ∧ (∀ v, dictGet (p.tags.getD []) "Name" = some v →
        (mkAutobuilderEC2Worker name password p rng).ec2tags =
          p.tags.getD []) := by
  rw [mkEC2Worker_ec2tags]
  simp only
  cases hp : p.tags with
  | none =>
      refine ⟨fun _ => by simp [dictGet], ?_, ?_⟩
      · intro k v hv; simp [dictGet] at hv
      · intro v hv; simp [dictGet] at hv
  | some ts =>
      cases ts with
      | nil =>
          refine ⟨fun _ => by simp [dictGet], ?_, ?_⟩
          · intro k v hv; simp [dictGet] at hv
          · intro v hv; simp [dictGet] at hv
      | cons p0 rest =>
          simp only [Option.getD_some]
          cases hN : dictGet (p0 :: rest) "Name" with
          | none =>
              refine ⟨fun _ => ?_, ?_, ?_⟩
              · simp [hN, dictGet_dictSet_self]
              · intro k v hv
                by_cases hk : k = "Name"
                · subst hk; simp [hv] at hN
                · simp [hN, dictGet_dictSet_ne _ _ hk, hv]
              · intro v hv
                exact Option.noConfusion hv
          | some v0 =>
              refine ⟨fun h => ?_, ?_, ?_⟩
              · exact Option.noConfusion h
              · intro k v hv; simp [hN, hv]
              · intro v _; simp [hN]

/-- C9 witness: a tag map without a `Name` key gets `Name = w1` added
(and keeps its own entries); a tag map already carrying `Name = custom`
is left unchanged. -/
theorem ec2worker_tag_derivation_witness :
    dictGet (mkAutobuilderEC2Worker "w1" (some "pw")
      (mkEC2Params "m5" "ami" [] none none none none
        (some [("env", "prod")]) false none none) "r").ec2tags "Name" =
      some "w1"
    ∧ (mkAutobuilderEC2Worker "w1" (some "pw")
        (mkEC2Params "m5" "ami" [] none none none none
          (some [("Name", "custom"), ("env", "prod")]) false none none)
        "r").ec2tags = [("Name", "custom"), ("env", "prod")] := by
  constructor
  · exact (ec2worker_tag_derivation "w1" (some "pw")
      (mkEC2Params "m5" "ami" [] none none none none
        (some [("env", "prod")]) false none none) "r").1 rfl
  · exact (ec2worker_tag_derivation "w1" (some "pw")
      (mkEC2Params "m5" "ami" [] none none none none
        (some [("Name", "custom"), ("env", "prod")]) false none none)
        "r").2.2 "custom" rfl

/-- C8 counterexample: with a scratch volume of type `io1` and an
*explicitly supplied* IOPS value of 0, the derived block-device mapping
carries `Iops = 1000` rather than the supplied value — the source tests
the value for truthiness (`if svp['iops']:`), not for presence, so the
claim that a supplied value is always used is false at this input. -/
theorem ec2worker_blockdevice_iops_zero_overridden :
    (mkAutobuilderEC2Worker "w1" (some "pw")
      (mkEC2Params "m5" "ami" [] none none none none none true
        (some { name := "/dev/sdx", size := 100, type := "io1",
                iops := some 0 }) none) "r").ec2_dev_mapping =
      some [{ deviceName := "/dev/sdx",
              ebs := { volumeType := "io1", volumeSize := 100,
                       deleteOnTermination := true,
                       iops := some 1000 } }]
    ∧ (some 1000 : Option Nat) ≠ some 0 := ⟨rfl, by decide⟩

/-- C8 (amended): when no scratch volume is requested the block-device
mapping is omitted; when requested, the mapping uses the supplied
scratch-volume spec (or the module default `/dev/xvdf`, 200, `standard`
when none is supplied), `DeleteOnTermination` is always true, and for
volume type `io1` the `Iops` value equals a *truthy* (non-zero) supplied
value and 1000 otherwise (absent or zero), while for any other volume
type the `Iops` key is absent. -/
theorem ec2worker_blockdevice_derivation
    (wname iname ami : String) (password : Option String) (rng : String)
    (secgroup_ids : List String)
    (keypair region subnet elastic_ip : Option String)
    (tags : Option (List (String × String))) (scratchvol : Bool)
    (svp : Option ScratchVolParams) (ipn : Option String) :
    (scratchvol = false →
      (mkAutobuilderEC2Worker wname password
        (mkEC2Params iname ami secgroup_ids keypair region subnet
          elastic_ip tags scratchvol svp ipn) rng).ec2_dev_mapping = none)
    ∧ (scratchvol = true →
        ∃ ebs, (mkAutobuilderEC2Worker wname password
            (mkEC2Params iname ami secgroup_ids keypair region subnet
              elastic_ip tags scratchvol svp ipn) rng).ec2_dev_mapping =
            some [{ deviceName := (svp.getD default_svp).name, ebs := ebs }]
          ∧ ebs.volumeType = (svp.getD default_svp).type
          ∧ ebs.volumeSize = (svp.getD default_svp).size
          ∧ ebs.deleteOnTermination = true
          ∧ ((svp.getD default_svp).type = "io1" →
              (∀ n, (svp.getD default_svp).iops = some n → n ≠ 0 →
                ebs.iops = some n)
              ∧ (((svp.getD default_svp).iops = none ∨
                  (svp.getD default_svp).iops = some 0) →
                 ebs.iops = some 1000))
          ∧ ((svp.getD default_svp).type ≠ "io1" → ebs.iops = none)) := by
  constructor
  · intro hs
    subst hs
    rfl
  · intro hs
    subst hs
    refine ⟨{ volumeType := (svp.getD default_svp).type,
              volumeSize := (svp.getD default_svp).size,
              deleteOnTermination := true,
              iops := if (svp.getD default_svp).type = "io1"
                      then some (if truthyNat (svp.getD default_svp).iops
                                 then (svp.getD default_svp).iops.getD 0
                                 else 1000)
                      else none },
            rfl, rfl, rfl, rfl, ?_, ?_⟩
    · intro hio
      constructor
      · intro n hn hnz
        simp only [hio, if_pos, hn, truthyNat]
        simp [hnz]
      · intro hcase
        rcases hcase with hnone | hzero
        · simp [hio, hnone, truthyNat]
        · simp [hio, hzero, truthyNat]
    · intro hne
      simp [hne]

/-- C8 witness: requesting a scratch volume of type `io1` with no IOPS
value yields a mapping entry with `Iops = 1000`; the default `standard`
scratch volume yields a mapping entry with no `Iops` key; without a
scratch volume the mapping is omitted. -/
theorem ec2worker_blockdevice_derivation_witness :
    (∃ ebs, (mkAutobuilderEC2Worker "w1" (some "pw")
        (mkEC2Params "m5" "ami" [] none none none none none true
          (some { name := "/dev/sdx", size := 100, type := "io1",
                  iops := none }) none) "r").ec2_dev_mapping =
        some [{ deviceName := "/dev/sdx", ebs := ebs }]
      ∧ ebs.iops = some 1000)
    ∧ (∃ ebs, (mkAutobuilderEC2Worker "w1" (some "pw")
        (mkEC2Params "m5" "ami" [] none none none none none true
          none none) "r").ec2_dev_mapping =
        some [{ deviceName := "/dev/xvdf", ebs := ebs }]
      ∧ ebs.iops = none)
    ∧ (mkAutobuilderEC2Worker "w1" (some "pw")
        (mkEC2Params "m5" "ami" [] none none none none none false
          none none) "r").ec2_dev_mapping = none := by
  refine ⟨?_, ?_, ?_⟩
  · obtain ⟨ebs, hmap, _, _, _, hio, _⟩ :=
      (ec2worker_blockdevice_derivation "w1" "m5" "ami" (some "pw") "r"
        [] none none none none none true
        (some { name := "/dev/sdx", size := 100, type := "io1",
                iops := none }) none).2 rfl
    exact ⟨ebs, hmap, (hio rfl).2 (Or.inl rfl)⟩
  · obtain ⟨ebs, hmap, _, _, _, _, hstd⟩ :=
      (ec2worker_blockdevice_derivation "w1" "m5" "ami" (some "pw") "r"
        [] none none none none none true none none).2 rfl
    exact ⟨ebs, hmap, hstd (by decide)⟩
  · exact (ec2worker_blockdevice_derivation "w1" "m5" "ami" (some "pw") "r"
      [] none none none none none false none none).1 rfl

/-- C2: when the head commit message matches the configured skip
pattern, `handle_pull_request` returns the empty change list and the
`git` tag — for every payload, hence for every action value including
`opened`: the skip check runs before the action filter. -/
theorem pull_request_skip_suppresses
    (registry : Registry) (h : GithubEventHandler) (payload : PRPayload)
    (event : String)
    (hskip : h.hasSkip (h.getCommitMsg payload.repo_full_name
      payload.head_sha) = true) :
    handle_pull_request registry h payload event = ([], "git") := by
  unfold handle_pull_request
  simp [hskip]

/-- Example handler whose skip pattern matches the (fixed) head commit
message returned by the external lookup. -/
def exSkipHandler : GithubEventHandler :=
  { pullrequest_ref := "head",
    hasSkip := fun m => m = "[skip ci] tweak",
    getCommitMsg := fun _ _ => "[skip ci] tweak",
    extractProperties := fun _ => [],
    dateparse := fun _ => 0,
    codebase := .pyNone }

/-- Example pull-request payload with action `opened`. -/
def exSkipPayload : PRPayload :=
  { number := 7, action := some "opened", commits := 1,
    title := "T", body := "B", repo_full_name := "org/repo",
    repo_html_url := "https://github.com/org/repo",
    head_sha := "deadbeef", created_at := "2020-01-01T00:00:00Z",
    links_html_href := "https://github.com/org/repo/pull/7",
    base_repo_html_url := "https://github.com/org/repo",
    base_repo_full_name := "org/repo", sender_login := "alice" }

/-- C2 witness: a concrete skipped pull-request event with action
`opened` yields the empty change list and tag `git`. -/
theorem pull_request_skip_suppresses_witness :
    handle_pull_request [] exSkipHandler exSkipPayload "pull_request" =
      ([], "git") :=
  pull_request_skip_suppresses [] exSkipHandler exSkipPayload
    "pull_request" (by decide)

/-- Example handler whose skip pattern never matches. -/
def exC1Handler : GithubEventHandler :=
  { pullrequest_ref := "head",
    hasSkip := fun _ => false,
    getCommitMsg := fun _ _ => "normal commit",
    extractProperties := fun _ => [],
    dateparse := fun _ => 1700000000,
    codebase := .pyNone }

/-- Example pull-request payload: PR 42, 3 commits, action
`synchronize`. -/
def exC1Payload : PRPayload :=
  { number := 42, action := some "synchronize", commits := 3,
    title := "Fix bug", body := "Details", repo_full_name := "org/repo",
    repo_html_url := "https://github.com/org/repo",
    head_sha := "abc123", created_at := "2020-01-01T00:00:00Z",
    links_html_href := "https://github.com/org/repo/pull/42",
    base_repo_html_url := "https://github.com/org/repo",
    base_repo_full_name := "org/repo", sender_login := "alice" }

/-- C1 counterexample: the synthesized comment text of the single change
record starts with `GitHub Pull Request #...`, not `Pull Request #...`
as the claim states — shown at the concrete payload (PR 42, 3 commits,
title `Fix bug`, body `Details`). -/
theorem pull_request_comment_has_github_prefix :
    ((handle_pull_request [] exC1Handler exC1Payload "pull_request").1.map
        Change.comments) =
      ["GitHub Pull Request #42 (3 commits)\nFix bug\nDetails"]
    ∧ "GitHub Pull Request #42 (3 commits)\nFix bug\nDetails" ≠
        "Pull Request #42 (3 commits)\nFix bug\nDetails" :=
  ⟨rfl, by decide⟩

/-- C1 (amended): for a pull-request payload whose head commit message
does not match the skip pattern and whose action is `opened`, `reopened`
or `synchronize`, `handle_pull_request` produces exactly one change
record with revision the head sha, branch `refs/pull/<n>/<flavor>`,
revlink the HTML link of the PR, category `pull`, author the sender
login, comment text `GitHub Pull Request #<n> (<k> commit<s>)\n<title>\n<body>`
(with `s` exactly when the commit count differs from 1), and properties
carrying the raw event name and the PR number. -/
theorem pull_request_change_record
    (registry : Registry) (h : GithubEventHandler) (payload : PRPayload)
    (event : String)
    (hskip : h.hasSkip (h.getCommitMsg payload.repo_full_name
      payload.head_sha) = false)
    (haction : payload.action = some "opened" ∨
      payload.action = some "reopened" ∨
      payload.action = some "synchronize") :
    ∃ c, handle_pull_request registry h payload event = ([c], "git")
      ∧ c.revision = payload.head_sha
      ∧ c.branch = "refs/pull/" ++ toString payload.number ++ "/" ++
          h.pullrequest_ref
      ∧ c.revlink = payload.links_html_href
      ∧ c.category = "pull"
      ∧ c.author = payload.sender_login
      ∧ c.comments = "GitHub Pull Request #" ++ toString payload.number ++
          " (" ++ toString payload.commits ++ " commit" ++
          (if payload.commits ≠ 1 then "s" else "") ++ ")\n" ++
          payload.title ++ "\n" ++ payload.body
      ∧ dictGet c.properties "event" = some (.str event)
      ∧ dictGet c.properties "prnumber" = some (.int payload.number) := by
  unfold handle_pull_request
  have hA : (match payload.action with
      | some a => a = "opened" || a = "reopened" || a = "synchronize"
      | none => false) = true := by
    rcases haction with h1 | h1 | h1 <;> simp [h1]
  simp only [hskip, hA, Bool.false_eq_true, Bool.not_true, if_false]
  refine ⟨_, rfl, rfl, rfl, rfl, rfl, rfl, rfl, ?_, ?_⟩
  · rw [dictGet_dictSet_ne _ _ (by decide : "event" ≠ "prnumber")]
    exact dictGet_dictSet_self _ _ _
  · exact dictGet_dictSet_self _ _ _

/-- C1 witness: the concrete non-skipped `synchronize` payload yields
exactly one change record with the expected revision and category. -/
theorem pull_request_change_record_witness :
    ∃ c, handle_pull_request [] exC1Handler exC1Payload "pull_request" =
        ([c], "git")
      ∧ c.revision = exC1Payload.head_sha
      ∧ c.category = "pull" := by
  obtain ⟨c, hc, hrev, _, _, hcat, _⟩ :=
    pull_request_change_record [] exC1Handler exC1Payload "pull_request"
      rfl (Or.inr (Or.inr rfl))
  exact ⟨c, hc, hrev, hcat⟩

/-- C3: `get_project_for_url` scans the registered configurations in
registration order and returns the answer of the first one whose
repo-URL map (`codebasemap`) contains the URL — and for any registered
configuration containing the URL that answer is exactly the project
label of the mapped repo; when no configuration contains the URL the
caller-supplied default is returned. -/
theorem get_project_for_url_first_match
    (registry : Registry) (url : String) (dflt : Option String) :
    (get_project_for_url registry url dflt =
      match registry.find?
          (fun nc => (dictGet nc.2.codebasemap url).isSome) with
      | some nc => nc.2.project_from_url url
      | none => dflt)
    ∧ ∀ nc ∈ registry, ∀ r, dictGet nc.2.codebasemap url = some r →
        ∃ repo, dictGet nc.2.repos r = some repo ∧
          nc.2.project_from_url url = some repo.project := by
  constructor
  · induction registry with
    | nil => rfl
    | cons nc rest ih =>
        obtain ⟨n, c⟩ := nc
        cases hc : c.project_from_url url with
        | some proj =>
            have hp : (dictGet c.codebasemap url).isSome = true := by
              have h := project_from_url_isSome c url
              rw [hc] at h
              exact h.symm
            simp [get_project_for_url, List.find?, hc, hp]
        | none =>
            have hp : (dictGet c.codebasemap url).isSome = false := by
              have h := project_from_url_isSome c url
              rw [hc] at h
              exact h.symm
            simpa [get_project_for_url, List.find?, hc, hp] using ih
  · intro nc _ r hr
    have hSome := codebasemap_lookup_key nc.2 url r hr
    cases h2 : dictGet nc.2.repos r with
    | none => rw [h2] at hSome; simp at hSome
    | some repo =>
        exact ⟨repo, rfl, project_from_url_eq_of nc.2 url r repo hr h2⟩

/-- Example configuration mapping a repo URL to project `projA`. -/
def exC3CfgA : AutobuilderConfig :=
  { name := "one", worker_names := [],
    repos := [("ra", mkRepo "ra" "https://git.example.com/x" none
      (some "projA") false)],
    distros := [] }

/-- Example configuration mapping the same repo URL to project `projB`. -/
def exC3CfgB : AutobuilderConfig :=
  { name := "two", worker_names := [],
    repos := [("rb", mkRepo "rb" "https://git.example.com/x" none
      (some "projB") false)],
    distros := [] }

/-- Example registry with two configurations, registered in the order
`one` then `two`, both mapping the same URL. -/
def exC3Registry : Registry := [("one", exC3CfgA), ("two", exC3CfgB)]

/-- C3 witness: with two registered configurations mapping the same URL,
the first-registered project label wins, and the first configuration
resolves the URL to its own repo project. -/
theorem get_project_for_url_first_match_witness :
    get_project_for_url exC3Registry "https://git.example.com/x" none =
      some "projA"
    ∧ exC3CfgA.project_from_url "https://git.example.com/x" =
      some "projA" := by
  constructor
  · exact ((get_project_for_url_first_match exC3Registry
      "https://git.example.com/x" none).1).trans rfl
  · obtain ⟨repo, hrepo, hproj⟩ :=
      (get_project_for_url_first_match exC3Registry
        "https://git.example.com/x" none).2 ("one", exC3CfgA)
        (List.mem_cons_self _ _) "ra" rfl
    have : repo = mkRepo "ra" "https://git.example.com/x" none
        (some "projA") false := by
      have h' : some (mkRepo "ra" "https://git.example.com/x" none
          (some "projA") false) = some repo := by
        rw [← hrepo]; rfl
      exact (Option.some_inj.mp h').symm
    rw [hproj, this]
    rfl

/-- The per-distro scheduler list, when it is produced at all, contains
the force scheduler with the fixed name and builder-name list. -/
theorem distroSchedulers_force_mem (repos : List (String × Repo))
    (slots : String → SlotSpec) (d : Distro) (lst : List SchedulerSpec)
    (h : distroSchedulers repos slots d = .ok lst) :
    ∃ cbp, SchedulerSpec.force
        { name := d.name ++ "-force", codebases := cbp,
          properties := [{ name := "buildtype", label := "Build type",
                           choices := d.buildtypes.map Buildtype.name,
                           defaultChoice := d.default_buildtype }],
          builderNames := d.builder_names } ∈ lst := by
  unfold distroSchedulers at h
  obtain ⟨pushPart, hpush, h⟩ := exceptBind_ok.mp h
  obtain ⟨prPart, hpr, h⟩ := exceptBind_ok.mp h
  obtain ⟨fs, hfs, h⟩ := exceptBind_ok.mp h
  obtain ⟨weeklyPart, hw, h⟩ := exceptBind_ok.mp h
  simp only [Except.ok.injEq] at h
  subst h
  unfold forceScheduler at hfs
  obtain ⟨cbp, hcbp, hfs⟩ := exceptBind_ok.mp hfs
  simp only [Except.ok.injEq] at hfs
  subst hfs
  refine ⟨cbp, ?_⟩
  simp [List.mem_append]

/-- Every distro in the list contributes a force scheduler with the
fixed name and builder names to a successful `schedulersList` result. -/
theorem schedulersList_force (repos : List (String × Repo))
    (slots : String → SlotSpec) (l : List Distro)
    (ss : List SchedulerSpec) (h : schedulersList repos slots l = .ok ss) :
    ∀ d ∈ l, ∃ fs, SchedulerSpec.force fs ∈ ss ∧
      fs.name = d.name ++ "-force" ∧ fs.builderNames = d.builder_names := by
  induction l generalizing ss with
  | nil => intro d hd; cases hd
  | cons d0 rest ih =>
      unfold schedulersList at h
      obtain ⟨here, hhere, h⟩ := exceptBind_ok.mp h
      obtain ⟨tail, htail, h⟩ := exceptBind_ok.mp h
      simp only [Except.ok.injEq] at h
      subst h
      intro d hd
      rcases List.mem_cons.mp hd with rfl | hmem
      · obtain ⟨cbp, hfs⟩ := distroSchedulers_force_mem repos slots d here hhere
        exact ⟨_, List.mem_append_left _ hfs, rfl, rfl⟩
      · obtain ⟨fs, hfs, hn, hb⟩ := ih tail htail d hmem
        exact ⟨fs, List.mem_append_right _ hfs, hn, hb⟩

/-- C6: for every distro of a configuration whose scheduler derivation
succeeds, the produced schedulers contain a force scheduler named
`<distro>-force` whose builder-name list is exactly the distro's derived
`<distro>-<imageset>` list, and whose `computeBuilderNames` returns that
fixed list for *every* externally supplied builder-name filter and
builder id. -/
theorem force_scheduler_fixed_builders
    (cfg : AutobuilderConfig) (slots : String → SlotSpec)
    (ss : List SchedulerSpec) (hss : cfg.schedulers slots = .ok ss) :
    ∀ d ∈ cfg.distros, ∃ fs,
      SchedulerSpec.force fs ∈ ss
      ∧ fs.name = d.name ++ "-force"
      ∧ fs.builderNames = d.builder_names
      ∧ d.builder_names =
          (d.targets.getD []).map (fun t => d.name ++ "-" ++ t.name)
      ∧ ∀ externalFilter builderid,
          computeBuilderNames fs externalFilter builderid =
            d.builder_names := by
  intro d hd
  obtain ⟨fs, hmem, hn, hb⟩ :=
    schedulersList_force cfg.repos slots cfg.distros ss hss d hd
  exact ⟨fs, hmem, hn, hb, rfl,
    fun _ _ => by rw [computeBuilderNames, hb]⟩

/-- Example distro with two target image sets and a push trigger. -/
def exDistro : Distro :=
  { name := "dist", reponame := "r", branch := "main", email := "e",
    artifacts_path := "/a",
    targets := some [{ name := "imgA", images := some ["img"],
                       sdkimages := none },
                     { name := "imgB", images := some ["img"],
                       sdkimages := none }],
    repotimer := 300,
    buildtypes := [{ name := "ci", defaulttype := true }],
    default_buildtype := "ci", weekly_type := none,
    push_type := some "ci", pullrequest_type := none }

/-- Example configuration with one polling repo and the example distro. -/
def exConfig : AutobuilderConfig :=
  { name := "cfg", worker_names := [],
    repos := [("r", mkRepo "r" "https://git.example.com/r" (some 300)
      none false)],
    distros := [exDistro] }

/-- A fixed weekly-slot allocator for the example configuration. -/
def exSlots : String → SlotSpec := fun _ => { dayOfWeek := 0, hour := 0, minute := 0 }

/-- The scheduler list derived from the example configuration. -/
def exSchedList : List SchedulerSpec :=
  match exConfig.schedulers exSlots with
  | .ok l => l
  | .error _ => []

/-- C6 witness: the example distro with two image sets yields a force
scheduler targeting exactly `dist-imgA` and `dist-imgB`, whatever the
external filter. -/
theorem force_scheduler_fixed_builders_witness :
    ∃ fs, SchedulerSpec.force fs ∈ exSchedList
      ∧ fs.name = "dist-force"
      ∧ fs.builderNames = ["dist-imgA", "dist-imgB"]
      ∧ computeBuilderNames fs (some ["other-builder"]) (some 5) =
          ["dist-imgA", "dist-imgB"] := by
  obtain ⟨fs, hmem, hn, hb, _, hcompute⟩ :=
    force_scheduler_fixed_builders exConfig exSlots exSchedList rfl
      exDistro (List.mem_cons_self _ _)
  refine ⟨fs, hmem, ?_, ?_, ?_⟩
  · rw [hn]; rfl
  · rw [hb]; rfl
  · rw [hcompute (some ["other-builder"]) (some 5)]; rfl

/-- C7 (code bug): on a configuration with a repo that declares a poll
interval, `change_sources` does not produce a poller at all — the
construction evaluates the unbound name `sort` on the branch set and
raises `NameError`, so the property claimed (one poller per polling
repo) is unachievable as written. -/
theorem change_sources_namerror_on_polling_repo :
    exConfig.change_sources =
      .error "NameError: name 'sort' is not defined" := rfl

/-- Example buildtype list with one default and one pull-request-flagged
buildtype. -/
def exBts : List Buildtype :=
  [{ name := "ci", defaulttype := true },
   { name := "prbt", pullrequesttype := true }]

/-- Placeholder distro for the impossible error branches of the example
constructions below. -/
def fallbackDistro : Distro :=
  { name := "", reponame := "", branch := "", email := "",
    artifacts_path := "", targets := none, repotimer := 0,
    buildtypes := [], default_buildtype := "", weekly_type := none,
    push_type := none, pullrequest_type := none }

/-- The distro built with a truthy `pullrequest_type` argument. -/
def exPRDistro : Distro :=
  match mkDistro "d" "r" "main" "e" "/a" none 300 (some exBts) none
      (some "__default__") (some "yes") with
  | .ok d => d
  | .error _ => fallbackDistro

/-- The distro built with `pullrequest_type = None`. -/
def exNoPRDistro : Distro :=
  match mkDistro "d" "r" "main" "e" "/a" none 300 (some exBts) none
      (some "__default__") none with
  | .ok d => d
  | .error _ => fallbackDistro

/-- C10 witness: with the example buildtype list, the truthy arguments
`yes` and `on` construct identical distros whose resolved pull-request
type is `prbt` (the flagged buildtype name), and the falsy argument
leaves the resolved pull-request type `None`. -/
theorem distro_pullrequest_flag_is_switch_witness :
    (mkDistro "d" "r" "main" "e" "/a" none 300 (some exBts) none
        (some "__default__") (some "yes") =
      mkDistro "d" "r" "main" "e" "/a" none 300 (some exBts) none
        (some "__default__") (some "on"))
    ∧ (∃ n, (((some exBts).getD defaultBuildtypes).filter
          (fun b => b.pullrequesttype)).map (fun b => b.name) = [n] ∧
        exPRDistro.pullrequest_type = some n)
    ∧ exNoPRDistro.pullrequest_type = none := by
  refine ⟨?_, ?_, ?_⟩
  · exact (distro_pullrequest_flag_is_switch "d" "r" "main" "e" "/a" none
      300 (some exBts) none (some "__default__") (some "yes")
      (some "on")).1 rfl rfl
  · exact (distro_pullrequest_flag_is_switch "d" "r" "main" "e" "/a" none
      300 (some exBts) none (some "__default__") (some "yes")
      (some "on")).2.1 rfl exPRDistro rfl
  · exact ((distro_pullrequest_flag_is_switch "d" "r" "main" "e" "/a" none
      300 (some exBts) none (some "__default__") none none).2.2 rfl).1
      exNoPRDistro rfl

end Autobuilder
